import Mathlib

/-!
Verification development for the TTO automation tool.

This file gives a shallow embedding of the program in `src/app.py` (the
Streamlit batch orchestrator `run_automation_process`, the step executor
`try_function` / `get_error_message`, the identifier extractor `extract_id`,
and the Step-2 configuration gate computing `all_checks_passed`), together
with theorems that settle the frozen claims about it.

Modelling conventions:
  * File contents are byte lists (`Bytes`).
  * The external collaborators imported by the program
    (`launch_first_ignite`, `format_summary`, `create_pdf`, and the
    `bs_*` Brightspot form-filling functions) are not part of the two
    source files; per the specification they are opaque collaborators
    invoked through narrow contracts.  They are modelled as an `Oracles`
    record of pure functions of their visible inputs; an oracle raising a
    Python exception is modelled by `Except.error` carrying `str(e)`.
  * The temporary directory shared by the saved uploads and the rendered
    sell sheets is modelled as an association list from filename to bytes
    (`FS`); Python `dict` assignment is modelled by `dictInsert`, which
    keeps the original position of an existing key (CPython semantics).
  * Streamlit UI side effects (`st.write`, `st.error`, progress bars) are
    not modelled; the `trace` field of `BatchState` records which external
    operation was invoked for which item, in order, so that claims about
    "no subsequent step executes" are statable.
  * The cancellation flag `st.session_state.cancel_processing` is polled
    once per loop iteration (src/app.py line 170); it is modelled as a
    function from the iteration index to the flag value observed there.
-/

namespace TTO

/-- Raw file contents: a sequence of bytes. -/
abbrev Bytes := List Nat

/-- The flat temporary directory: filename to contents, unique keys. -/
abbrev FS := List (String × Bytes)

/-- A dynamically-typed Python value as far as the orchestrator inspects
one: it only ever asks `isinstance(x, str)` and `x.startswith("Failed")`,
so we distinguish strings from everything else (opaque `other`). -/
inductive PyVal where
  | str : String → PyVal
  | other : Nat → PyVal
deriving DecidableEq

/-- Python `s.startswith(pre)`, on the character lists underlying the
strings. -/
def pyStartsWith (s pre : String) : Bool :=
  List.isPrefixOf pre.data s.data

/-- Python `dict` read `d[k]` (as an `Option`): the value stored under
the key, scanning from the front (keys are unique in every dict built
here). -/
def dictGet {β : Type} : List (String × β) → String → Option β
  | [], _ => none
  | (a, b) :: t, n => if n = a then some b else dictGet t n

/-- Python `dict` assignment `d[k] = v`: if the key exists its value is
updated in place (keeping its position), otherwise the pair is appended. -/
def dictInsert {β : Type} (d : List (String × β)) (k : String) (v : β) :
    List (String × β) :=
  if d.any (fun p => decide (p.1 = k)) then
    d.map (fun p => if p.1 = k then (k, v) else p)
  else
    d ++ [(k, v)]

/-- An ASCII decimal digit, the `\d` of the identifier pattern. -/
def isDigitCh (c : Char) : Bool :=
  decide ('0' ≤ c) && decide (c ≤ '9')

/-- Whether the fixed pattern `\d{4}-\d{3}` matches at the head of the
character list. -/
def matchesIdAt : List Char → Bool
  | d1 :: d2 :: d3 :: d4 :: h :: e1 :: e2 :: e3 :: _ =>
    isDigitCh d1 && isDigitCh d2 && isDigitCh d3 && isDigitCh d4 &&
      (h == '-') && isDigitCh e1 && isDigitCh e2 && isDigitCh e3
  | _ => false

/-- Leftmost search for the pattern, as `re.search` performs it: try each
start position from the left; on the first position where the pattern
matches, return those eight characters. -/
def extractIdChars : List Char → Option (List Char)
  | [] => none
  | c :: rest =>
    if matchesIdAt (c :: rest) then some ((c :: rest).take 8)
    else extractIdChars rest

/-- `extract_id` from src/app.py lines 77-82: first match of
`(\d{4}-\d{3})` anywhere in the filename, or `None`. -/
def extract_id (filename : String) : Option String :=
  (extractIdChars filename.data).map String.mk

/-- The static step-name-to-message table of `get_error_message`
(src/app.py lines 93-112). -/
def error_messages : List (String × String) :=
  [("launch_first_ignite", "Failed to extract data from FirstIgnite - the disclosure may not be compatible or the service may be unavailable"),
   ("format_summary", "Failed to parse the extracted data - the disclosure format may be incorrect"),
   ("create_pdf", "Failed to generate the sell sheet PDF - there may be an issue with the data or formatting"),
   ("bs_login", "Failed to log into Brightspot - please check your credentials"),
   ("bs_template_click", "Failed to access the technology template in Brightspot"),
   ("bs_display_internal_name", "Failed to set the technology name in Brightspot"),
   ("bs_title_techID", "Failed to set the technology title and ID in Brightspot"),
   ("bs_executive_statement", "Failed to set the executive statement in Brightspot"),
   ("bs_technology_overview", "Failed to set the technology overview in Brightspot"),
   ("bs_key_advantages", "Failed to set the key advantages in Brightspot"),
   ("bs_problems_addressed", "Failed to set the problems addressed in Brightspot"),
   ("bs_market_applications", "Failed to set the market applications in Brightspot"),
   ("bs_additional_information", "Failed to set additional information in Brightspot"),
   ("bs_upload_pdf", "Failed to upload the sell sheet PDF to Brightspot"),
   ("bs_year_tag", "Failed to set the year tag in Brightspot"),
   ("bs_contact_link", "Failed to set the contact link in Brightspot"),
   ("bs_override_description", "Failed to update the override description in Brightspot"),
   ("bs_publish", "Failed to publish the technology page in Brightspot")]

/-- `get_error_message` from src/app.py lines 91-115: look the function
name up in the static table, fall back to `Failed during {func_name}`,
and append `. Error: {error}`. -/
def get_error_message (func_name error : String) : String :=
  ((dictGet error_messages func_name).getD ("Failed during " ++ func_name))
    ++ ". Error: " ++ error

/-- `try_function` from src/app.py lines 117-124.  The wrapped call is an
`Except`: `ok v` is a normal return, `error e` is a raised exception with
`str(e) = e`.  The result is the returned value (`Sum.inl`) or the
classified error string (`Sum.inr`), paired with the list of emitted
`logging.warning` lines. -/
def try_function {α : Type} (call : Except String α)
    (sCleanID func_name : String) : (α ⊕ String) × List String :=
  match call with
  | Except.ok v => (Sum.inl v, [])
  | Except.error e =>
    (Sum.inr (get_error_message func_name e),
     [sCleanID ++ " - " ++ func_name ++ " failed: " ++ e])

/-- The Python value a `try_function` call site sees when the wrapped
operation itself produces a `PyVal`: on a normal return it is that value,
on a raise it is the classified error string. -/
def tryValue (call : Except String PyVal) (sCleanID func_name : String) :
    PyVal :=
  match (try_function call sCleanID func_name).1 with
  | Sum.inl v => v
  | Sum.inr s => PyVal.str s

/-- The orchestrator's failure test
`isinstance(x, str) and x.startswith("Failed")`. -/
def isFailureVal : PyVal → Bool
  | PyVal.str s => pyStartsWith s "Failed"
  | PyVal.other _ => false

/-- The string content of a `PyVal` known to be a string (the failure
branch only ever stores strings); an arbitrary default otherwise. -/
def pyValStr : PyVal → String
  | PyVal.str s => s
  | PyVal.other _ => ""

/-- Python set difference `a - b` over identifier sets built from lists
(only emptiness and membership of the result are ever consumed). -/
def setMinus (a b : List String) : List String :=
  a.filter (fun x => !(b.contains x))

/-- The identifier set comprehension
`{extract_id(f.name) for f in files if extract_id(f.name)}`
(src/app.py lines 352-353, 390). -/
def idSet (names : List String) : List String :=
  names.filterMap extract_id

/-- The Step-2 configuration gate of src/app.py lines 338-407: the value
of `all_checks_passed` after the image-matching and tag-matching blocks.
`imageNames` is empty iff nothing was uploaded on the image uploader
(Python truthiness of `uploaded_images`); `tagData` is `none` if no tag
file was uploaded, `some none` if reading or indexing the table raised
(lines 401-404), and `some (some ids)` for the parsed identifier column.
The later Playwright-installation check (line 415-417) is outside the
claims about this gate and is not modelled. -/
def all_checks_passed (pdfNames : List String)
    (include_images : Bool) (imageNames : List String)
    (include_tags : Bool) (tagData : Option (Option (List String))) : Bool :=
  let acp1 :=
    if include_images then
      if imageNames.isEmpty then false
      else
        let pdf_ids := idSet pdfNames
        let image_ids := idSet imageNames
        let missing_images := setMinus pdf_ids image_ids
        let extra_images := setMinus image_ids pdf_ids
        if missing_images.isEmpty && extra_images.isEmpty then true else false
    else true
  if include_tags then
    match tagData with
    | none => false
    | some none => false
    | some (some tag_ids) =>
      let missing_tags := setMinus (idSet pdfNames) tag_ids
      if missing_tags.isEmpty then acp1 else false
  else acp1

/-- An uploaded file handle: Streamlit gives the orchestrator its `name`
and its buffered contents. -/
structure UploadedFile where
  name : String
  content : Bytes
deriving DecidableEq

/-- The transformed fields produced by the `format_summary` collaborator
on success (spec section 6: title, executive statement, description and
the three ordered lists), as destructured at src/app.py line 220. -/
structure Formatted where
  sTitle : String
  sExecutiveStatement : String
  sDescription : String
  lstAdvantages : List String
  lstProblemsSolved : List String
  lstMarketApplications : List String
deriving DecidableEq

/-- The external collaborators invoked by the orchestrator, as pure
functions of their visible inputs.  `Except.error e` models the call
raising an exception whose `str` is `e`.
  * `fi` is `launch_first_ignite(firstignite_page, pdf_paths[pdf_id])`
    seen as a function of the bytes stored at that path;
  * `fmt` is `format_summary(extracted_summary)`;
  * `render` is `create_pdf(...)` for the given fields and identifier; on
    a normal return it yields its return value together with the bytes it
    wrote to `{pdf_id}_sell_sheet.pdf` in the export folder (`none` if it
    returned without producing the file, the case src/app.py lines
    246-249 defends against);
  * `bs k` is the k-th entry of the `brightspot_functions` list (lines
    256-271), seen as a function of the transformed fields, the
    identifier and the rendered artifact bytes it may upload. -/
structure Oracles where
  fi : Bytes → Except String PyVal
  fmt : PyVal → Except String Formatted
  render : Formatted → String → Except String (PyVal × Option Bytes)
  bs : Nat → Formatted → String → Bytes → Except String PyVal

/-- The batch bookkeeping built by `run_automation_process`, plus the
shared temporary directory and the invocation trace. -/
structure BatchState where
  successes : List String
  failures : List (String × String)
  sheets : List (String × Bytes)
  fs : FS
  trace : List (String × String)
deriving DecidableEq

/-- The path `os.path.join(export_folder, f"{pdf_id}_sell_sheet.pdf")`
within the flat temporary directory (src/app.py line 240). -/
def sheetFileName (pdf_id : String) : String :=
  pdf_id ++ "_sell_sheet.pdf"

/-- The artifact key `f"sell_sheet_{pdf_id}.pdf"` (src/app.py line 244). -/
def sheetKey (pdf_id : String) : String :=
  "sell_sheet_" ++ pdf_id ++ ".pdf"

/-- The `func_name` column of the `brightspot_functions` list
(src/app.py lines 256-271), in order. -/
def bsNames : List String :=
  ["bs_template_click", "bs_display_internal_name", "bs_title_techID",
   "bs_executive_statement", "bs_technology_overview", "bs_key_advantages",
   "bs_problems_addressed", "bs_market_applications",
   "bs_additional_information", "bs_upload_pdf", "bs_year_tag",
   "bs_contact_link", "bs_override_description", "bs_publish"]

/-- The Brightspot sub-step loop (src/app.py lines 274-290): run the
steps in order starting at index `k`; on the first value that is a
string starting with `Failed`, stop and return it (the single entry of
`file_errors`), together with the names of the sub-steps actually
invoked. -/
def runBs (o : Oracles) (fdata : Formatted) (pdf_id : String)
    (art : Bytes) : Nat → List String → Option String × List String
  | _, [] => (none, [])
  | k, nm :: rest =>
    let v := tryValue (o.bs k fdata pdf_id art) pdf_id nm
    if isFailureVal v then (some (pyValStr v), [nm])
    else
      let r := runBs o fdata pdf_id art (k + 1) rest
      (r.1, nm :: r.2)

/-- The bytes `launch_first_ignite` reads: the contents of the file at
`pdf_paths[pdf_id]`.  In the program the key and the file always exist
(both were created by the save loop); the `getD` defaults only make the
function total on arbitrary states. -/
def pdfContentOf (pdf_paths : List (String × String)) (fs : FS)
    (pdf_id : String) : Bytes :=
  (dictGet fs ((dictGet pdf_paths pdf_id).getD "")).getD []

/-- One iteration of the per-file loop of `run_automation_process`
(src/app.py lines 173-306), acting on the batch bookkeeping.

Fidelity notes:
  * a failed step appends its message to the per-item `file_errors` list
    and executes `continue` (lines 200-202, 216-218, 235-237, 247-249);
    the `continue` skips the final bookkeeping at lines 296-301, so those
    branches return the state with only the trace extended;
  * `create_pdf`'s file write happens inside the call, before the
    `startswith("Failed")` test, so the filesystem update precedes that
    test; a raising `create_pdf` is modelled as writing nothing;
  * when `format_summary` raises, the error string produced by
    `get_error_message` always starts with `Failed` (every table entry
    and the fallback do), so the unpacking at line 220 is never reached
    on that branch; the unreachable sub-branch (an error string without
    the `Failed` prefix would raise `ValueError` at line 220, caught by
    the item-level handler at lines 303-306) is kept for totality;
  * the item-level `except` (line 303) has nothing else to catch in this
    typed model, since every collaborator call is already wrapped. -/
def processItem (o : Oracles) (pdf_paths : List (String × String))
    (st : BatchState) (fname : String) : BatchState :=
  match extract_id fname with
  | none =>
    { st with failures :=
        st.failures ++ [(fname, "Could not extract a valid ID from filename")] }
  | some pdf_id =>
    let extracted_summary :=
      tryValue (o.fi (pdfContentOf pdf_paths st.fs pdf_id)) pdf_id
        "launch_first_ignite"
    let st1 := { st with trace := st.trace ++ [(pdf_id, "launch_first_ignite")] }
    if isFailureVal extracted_summary then st1
    else
      let fmR := (try_function (o.fmt extracted_summary) pdf_id "format_summary").1
      let st2 := { st1 with trace := st1.trace ++ [(pdf_id, "format_summary")] }
      match fmR with
      | Sum.inr s =>
        if pyStartsWith s "Failed" then st2
        else
          { st2 with failures := st2.failures ++
              [(fname, "Unexpected error: could not unpack the formatted data")] }
      | Sum.inl fdata =>
        let prR := (try_function (o.render fdata pdf_id) pdf_id "create_pdf").1
        let st3 := { st2 with trace := st2.trace ++ [(pdf_id, "create_pdf")] }
        let pw : PyVal × Option Bytes :=
          match prR with
          | Sum.inl r => r
          | Sum.inr s => (PyVal.str s, none)
        let fs1 : FS :=
          match pw.2 with
          | some b => dictInsert st3.fs (sheetFileName pdf_id) b
          | none => st3.fs
        let st4 := { st3 with fs := fs1 }
        if isFailureVal pw.1 then st4
        else
          match dictGet fs1 (sheetFileName pdf_id) with
          | none => st4
          | some pdfBytes =>
            let newSheets := dictInsert st4.sheets (sheetKey pdf_id) pdfBytes
            let st5 := { st4 with sheets := newSheets }
            let r := runBs o fdata pdf_id pdfBytes 0 bsNames
            let st6 := { st5 with trace := st5.trace ++ r.2.map (fun nm => (pdf_id, nm)) }
            match r.1 with
            | some e => { st6 with failures := st6.failures ++ [(fname, e)] }
            | none => { st6 with successes := st6.successes ++ [pdf_id] }

/-- The save loops of src/app.py lines 139-147: save each uploaded file
whose name yields an identifier into the temporary directory, and record
`paths[id] = path` (a later file with the same identifier overwrites the
dictionary entry; a later file with the same name overwrites the saved
file). -/
def saveUploadedFiles : List UploadedFile →
    FS × List (String × String) → FS × List (String × String)
  | [], acc => acc
  | f :: rest, acc =>
    match extract_id f.name with
    | none => saveUploadedFiles rest acc
    | some id =>
      saveUploadedFiles rest
        (dictInsert acc.1 f.name f.content, dictInsert acc.2 id f.name)

/-- The per-file loop of src/app.py lines 169-306: before each item the
cancellation flag is polled (`cancel i` is its value observed at the
start of iteration `i`); if set, the loop breaks and the state so far is
returned. -/
def runLoop (o : Oracles) (pdf_paths : List (String × String))
    (cancel : Nat → Bool) : Nat → List String → BatchState → BatchState
  | _, [], st => st
  | i, fname :: rest, st =>
    if cancel i then st
    else runLoop o pdf_paths cancel (i + 1) rest (processItem o pdf_paths st fname)

/-- `run_automation_process` (src/app.py lines 127-310): save the PDFs,
then the images, into the shared temporary directory, then iterate the
per-file pipeline.  `tag_df` is accepted and never used, exactly as in
the source.  The browser session management (lines 155-166, 308) has no
observable effect in this model beyond the oracles. -/
def run_automation_process {τ : Type} (o : Oracles) (cancel : Nat → Bool)
    (pdf_files image_files : List UploadedFile) (tag_df : τ) : BatchState :=
  let sp := saveUploadedFiles pdf_files ([], [])
  let si := saveUploadedFiles image_files (sp.1, [])
  runLoop o sp.2 cancel 0 (pdf_files.map (fun f => f.name))
    { successes := [], failures := [], sheets := [], fs := si.1, trace := [] }

/-- A fixed transformed-fields value used by the concrete test batches. -/
def fmtSample : Formatted :=
  { sTitle := "T", sExecutiveStatement := "E", sDescription := "D",
    lstAdvantages := [], lstProblemsSolved := [], lstMarketApplications := [] }

/-- Collaborators that succeed on every call: extraction yields an opaque
summary, formatting yields `fmtSample`, rendering writes the byte `[7]`,
and every Brightspot sub-step returns an opaque value. -/
def okOracles : Oracles :=
  { fi := fun _ => Except.ok (PyVal.other 0),
    fmt := fun _ => Except.ok fmtSample,
    render := fun _ _ => Except.ok (PyVal.other 1, some [7]),
    bs := fun _ _ _ _ => Except.ok (PyVal.other 2) }

/-- A cancellation flag that is never set. -/
def cancelNever : Nat → Bool := fun _ => false

/-- A one-item batch. -/
def pdfsOne : List UploadedFile := [{ name := "2025-001.pdf", content := [1] }]

/-! ### Association-list lemmas for the `dict` model -/

/-- Lookup distributes over append: the left list wins. -/
lemma dictGet_append {β : Type} (n : String) :
    ∀ d e : List (String × β), dictGet (d ++ e) n =
      match dictGet d n with
      | some v => some v
      | none => dictGet e n
  | [], _ => rfl
  | (a, b) :: t, e => by
    by_cases h : n = a <;> simp [dictGet, h, dictGet_append n t e]

/-- A successful lookup exhibits a member of the list. -/
lemma dictGet_mem {β : Type} :
    ∀ (l : List (String × β)) (k : String) (v : β),
      dictGet l k = some v → (k, v) ∈ l
  | [], _, _, h => by simp [dictGet] at h
  | (a, b) :: t, k, v, h => by
    by_cases hka : k = a
    · subst hka
      simp only [dictGet, if_pos rfl] at h
      cases h
      exact List.mem_cons_self _ _
    · simp only [dictGet, if_neg hka] at h
      exact List.mem_cons_of_mem _ (dictGet_mem t k v h)

/-- The key-existence test used by `dictInsert` agrees with lookup. -/
lemma any_key_eq_isSome {β : Type} :
    ∀ (d : List (String × β)) (k : String),
      d.any (fun p => decide (p.1 = k)) = (dictGet d k).isSome
  | [], _ => rfl
  | (a, b) :: t, k => by
    by_cases h : a = k
    · subst h
      simp [dictGet]
    · have h2 : ¬k = a := fun hh => h hh.symm
      simp [dictGet, h, h2, any_key_eq_isSome t k]

/-- Lookup after the in-place update branch of `dictInsert`. -/
lemma dictGet_map_update {β : Type} (k : String) (v : β) :
    ∀ (d : List (String × β)) (n : String),
      dictGet (d.map (fun p => if p.1 = k then (k, v) else p)) n =
        if n = k then (dictGet d k).map (fun _ => v) else dictGet d n
  | [], n => by by_cases hnk : n = k <;> simp [dictGet, hnk]
  | (a, b) :: t, n => by
    simp only [List.map_cons]
    by_cases hak : a = k
    · subst hak
      rw [if_pos (show (a, b).1 = a from rfl)]
      by_cases hna : n = a
      · subst hna
        simp [dictGet]
      · simp [dictGet, hna, dictGet_map_update a v t n]
    · rw [if_neg (show ¬(a, b).1 = k from hak)]
      by_cases hna : n = a
      · subst hna
        have hnk : ¬n = k := hak
        have hkn : ¬k = n := fun hh => hak hh.symm
        simp [dictGet, hnk, hkn]
      · have hka : ¬k = a := fun hh => hak hh.symm
        simp [dictGet, hna, hka, dictGet_map_update k v t n]

/-- Lookup after Python dict assignment: the assigned key now maps to the
new value and every other key is untouched. -/
lemma dictGet_dictInsert {β : Type} (d : List (String × β)) (k n : String)
    (v : β) :
    dictGet (dictInsert d k v) n = if n = k then some v else dictGet d n := by
  unfold dictInsert
  cases hany : d.any (fun p => decide (p.1 = k)) with
  | false =>
    have hnone : dictGet d k = none := by
      rw [any_key_eq_isSome] at hany
      exact Option.not_isSome_iff_eq_none.mp (by simp [hany])
    simp only [hany, Bool.false_eq_true, if_false, dictGet_append]
    by_cases hnk : n = k
    · subst hnk
      simp [hnone, dictGet]
    · cases hl : dictGet d n <;> simp [hl, dictGet, hnk]
  | true =>
    have hsome : (dictGet d k).isSome := by rw [← any_key_eq_isSome, hany]
    obtain ⟨w, hw⟩ := Option.isSome_iff_exists.mp hsome
    simp only [hany, if_true, dictGet_map_update, hw, Option.map_some']

/-! ### The classified error strings always start with `Failed` -/

/-- A prefix of `s` is a prefix of `s ++ t`. -/
lemma pyStartsWith_append (s t pre : String)
    (h : pyStartsWith s pre = true) : pyStartsWith (s ++ t) pre = true := by
  unfold pyStartsWith at h ⊢
  rw [ List.isPrefixOf_iff_prefix] at h ⊢
  rw [String.data_append]
  exact h.trans (List.prefix_append _ _)

/-- Every string produced by `get_error_message` starts with `Failed`:
each entry of the static table does, and so does the fallback.  This is
what makes the orchestrator's `startswith("Failed")` test detect every
raised-and-classified step error. -/
lemma get_error_message_startsWith (fn e : String) :
    pyStartsWith (get_error_message fn e) "Failed" = true := by
  unfold get_error_message
  cases hl : dictGet error_messages fn with
  | some m =>
    have hm : (fn, m) ∈ error_messages := dictGet_mem _ _ _ hl
    have hall : ∀ p ∈ error_messages, pyStartsWith p.2 "Failed" = true := by decide
    have hb : pyStartsWith m "Failed" = true := hall (fn, m) hm
    simp only [Option.getD_some]
    exact pyStartsWith_append _ _ _ (pyStartsWith_append _ _ _ hb)
  | none =>
    simp only [Option.getD_none]
    have hbase : pyStartsWith "Failed during " "Failed" = true := by decide
    exact pyStartsWith_append _ _ _
      (pyStartsWith_append _ _ _ (pyStartsWith_append _ _ _ hbase))

/-! ### Step-executor value lemmas -/

@[simp] lemma tryValue_ok (v : PyVal) (id fn : String) :
    tryValue (Except.ok v) id fn = v := rfl

@[simp] lemma tryValue_error (e id fn : String) :
    tryValue (Except.error e) id fn = PyVal.str (get_error_message fn e) := rfl

/-- A raising step is always seen as a failure by the orchestrator. -/
lemma isFailureVal_tryValue_error (e id fn : String) :
    isFailureVal (tryValue (Except.error e) id fn) = true := by
  rw [tryValue_error]
  exact get_error_message_startsWith fn e

/-! ### Brightspot sub-step loop lemmas -/

/-- If no sub-step value is a failure, the loop visits every sub-step
and reports no error. -/
lemma runBs_all_ok (o : Oracles) (fdata : Formatted) (pdf_id : String)
    (art : Bytes) :
    ∀ (l : List String) (k : Nat),
      (∀ m, m < l.length →
        isFailureVal (tryValue (o.bs (k + m) fdata pdf_id art) pdf_id
          (l.getD m "")) = false) →
      runBs o fdata pdf_id art k l = (none, l)
  | [], _, _ => rfl
  | nm :: rest, k, h => by
    have h0 := h 0 (Nat.succ_pos _)
    simp only [List.getD_cons_zero, Nat.add_zero] at h0
    have hrest : ∀ m, m < rest.length →
        isFailureVal (tryValue (o.bs (k + 1 + m) fdata pdf_id art) pdf_id
          (rest.getD m "")) = false := by
      intro m hm
      have := h (m + 1) (by simpa using Nat.succ_lt_succ hm)
      simpa [List.getD_cons_succ, show k + (m + 1) = k + 1 + m by omega] using this
    simp only [runBs, h0, Bool.false_eq_true, if_false,
      runBs_all_ok o fdata pdf_id art rest (k + 1) hrest]

/-- If the first `j` sub-step values are non-failures and the value of
sub-step `j` is a failure, the loop stops there: it reports that value's
string and has visited exactly the first `j + 1` sub-steps. -/
lemma runBs_fail_at (o : Oracles) (fdata : Formatted) (pdf_id : String)
    (art : Bytes) :
    ∀ (l : List String) (k j : Nat), j < l.length →
      (∀ m, m < j →
        isFailureVal (tryValue (o.bs (k + m) fdata pdf_id art) pdf_id
          (l.getD m "")) = false) →
      isFailureVal (tryValue (o.bs (k + j) fdata pdf_id art) pdf_id
        (l.getD j "")) = true →
      runBs o fdata pdf_id art k l =
        (some (pyValStr (tryValue (o.bs (k + j) fdata pdf_id art) pdf_id
          (l.getD j ""))), l.take (j + 1))
  | [], _, j, hj, _, _ => absurd hj (by simp)
  | nm :: rest, k, 0, _, _, hfail => by
    simp only [List.getD_cons_zero, Nat.add_zero] at hfail ⊢
    simp [runBs, hfail]
  | nm :: rest, k, j + 1, hj, hok, hfail => by
    have h0 := hok 0 (Nat.succ_pos _)
    simp only [List.getD_cons_zero, Nat.add_zero] at h0
    have hok' : ∀ m, m < j →
        isFailureVal (tryValue (o.bs (k + 1 + m) fdata pdf_id art) pdf_id
          (rest.getD m "")) = false := by
      intro m hm
      have := hok (m + 1) (Nat.succ_lt_succ hm)
      simpa [List.getD_cons_succ, show k + (m + 1) = k + 1 + m by omega] using this
    have hfail' : isFailureVal (tryValue (o.bs (k + 1 + j) fdata pdf_id art)
        pdf_id (rest.getD j "")) = true := by
      simpa [List.getD_cons_succ, show k + (j + 1) = k + 1 + j by omega] using hfail
    have hj' : j < rest.length := by simpa using Nat.lt_of_succ_lt_succ hj
    have IH := runBs_fail_at o fdata pdf_id art rest (k + 1) j hj' hok' hfail'
    simp only [runBs, h0, Bool.false_eq_true, if_false, IH, List.take_succ_cons,
      List.getD_cons_succ, show k + 1 + j = k + (j + 1) by omega]

/-! ### Per-item scenario lemmas -/

/-- A file without an extractable identifier is recorded as an immediate
failure and no step runs (src/app.py lines 174-178). -/
lemma processItem_no_id (o : Oracles) (paths : List (String × String))
    (st : BatchState) (fname : String)
    (hid : extract_id fname = none) :
    processItem o paths st fname =
      { st with failures :=
          st.failures ++ [(fname, "Could not extract a valid ID from filename")] } := by
  unfold processItem
  rw [hid]

/-- When the extraction step's value is classified as failed, the item's
processing stops after that single call and, because the `continue` at
line 202 skips the bookkeeping at lines 296-301, only the trace changes:
no success, no failure, no artifact is recorded. -/
lemma processItem_extract_fail (o : Oracles) (paths : List (String × String))
    (st : BatchState) (fname pdf_id : String)
    (hid : extract_id fname = some pdf_id)
    (hfail : isFailureVal (tryValue (o.fi (pdfContentOf paths st.fs pdf_id))
      pdf_id "launch_first_ignite") = true) :
    processItem o paths st fname =
      { st with trace := st.trace ++ [(pdf_id, "launch_first_ignite")] } := by
  unfold processItem
  rw [hid]
  dsimp only
  rw [hfail]
  simp

/-- When extraction succeeds with a non-failing value and
`format_summary` raises, the item's processing stops after the second
call; only the trace changes (the `continue` at line 218 again skips
lines 296-301). -/
lemma processItem_fmt_fail (o : Oracles) (paths : List (String × String))
    (st : BatchState) (fname pdf_id : String) (v : PyVal) (e : String)
    (hid : extract_id fname = some pdf_id)
    (hfi : o.fi (pdfContentOf paths st.fs pdf_id) = Except.ok v)
    (hv : isFailureVal v = false)
    (hfmt : o.fmt v = Except.error e) :
    processItem o paths st fname =
      { st with trace := st.trace ++
          [(pdf_id, "launch_first_ignite"), (pdf_id, "format_summary")] } := by
  unfold processItem
  rw [hid]
  dsimp only
  rw [hfi, tryValue_ok, hv, hfmt]
  simp only [try_function, Bool.false_eq_true, if_false]
  rw [if_pos (get_error_message_startsWith "format_summary" e)]
  simp

/-- When extraction and formatting succeed and `create_pdf` raises, the
item's processing stops after the third call; nothing is written and
only the trace changes. -/
lemma processItem_render_fail (o : Oracles) (paths : List (String × String))
    (st : BatchState) (fname pdf_id : String) (v : PyVal)
    (fdata : Formatted) (e : String)
    (hid : extract_id fname = some pdf_id)
    (hfi : o.fi (pdfContentOf paths st.fs pdf_id) = Except.ok v)
    (hv : isFailureVal v = false)
    (hfmt : o.fmt v = Except.ok fdata)
    (hrender : o.render fdata pdf_id = Except.error e) :
    processItem o paths st fname =
      { st with trace := st.trace ++
          [(pdf_id, "launch_first_ignite"), (pdf_id, "format_summary"),
           (pdf_id, "create_pdf")] } := by
  unfold processItem
  rw [hid]
  dsimp only
  rw [hfi, tryValue_ok, hv]
  simp only [Bool.false_eq_true, if_false]
  rw [hfmt]
  simp only [try_function]
  rw [hrender]
  simp only [try_function]
  rw [if_pos (show isFailureVal (PyVal.str (get_error_message "create_pdf" e)) = true
    from get_error_message_startsWith "create_pdf" e)]
  simp

/-- When `create_pdf` returns normally but its return value is a genuine
string starting with `Failed` (having written the file or not, `w`), the
`startswith` test at src/app.py line 234 classifies the step as failed
and the `continue` at line 237 skips the bookkeeping: only the trace
(and, when `w` wrote, the directory) changes — the item is recorded
nowhere and no artifact enters the sheets dict. -/
lemma processItem_render_payload_fail (o : Oracles)
    (paths : List (String × String)) (st : BatchState)
    (fname pdf_id : String) (v : PyVal) (fdata : Formatted) (s3 : String)
    (w : Option Bytes)
    (hid : extract_id fname = some pdf_id)
    (hfi : o.fi (pdfContentOf paths st.fs pdf_id) = Except.ok v)
    (hv : isFailureVal v = false)
    (hfmt : o.fmt v = Except.ok fdata)
    (hrender : o.render fdata pdf_id = Except.ok (PyVal.str s3, w))
    (hps : pyStartsWith s3 "Failed" = true) :
    processItem o paths st fname =
      { st with
        fs := w.elim st.fs (fun b => dictInsert st.fs (sheetFileName pdf_id) b),
        trace := st.trace ++
          [(pdf_id, "launch_first_ignite"), (pdf_id, "format_summary"),
           (pdf_id, "create_pdf")] } := by
  unfold processItem
  rw [hid]
  dsimp only
  rw [hfi, tryValue_ok, hv]
  simp only [Bool.false_eq_true, if_false]
  rw [hfmt]
  simp only [try_function]
  rw [hrender]
  simp only [try_function]
  rw [if_pos (show isFailureVal (PyVal.str s3) = true from hps)]
  cases w <;> simp [Option.elim, List.append_assoc]

/-- When extract, transform and render all succeed (the artifact `b` is
written) and the first failing Brightspot sub-step is number `j`, the
item is recorded as a failure carrying that sub-step's string, the
artifact stays in the sheets dict, and the sub-steps after `j` are never
invoked (the trace ends at sub-step `j`). -/
lemma processItem_publish_fail (o : Oracles) (paths : List (String × String))
    (st : BatchState) (fname pdf_id : String) (v pv : PyVal)
    (fdata : Formatted) (b : Bytes) (j : Nat)
    (hid : extract_id fname = some pdf_id)
    (hfi : o.fi (pdfContentOf paths st.fs pdf_id) = Except.ok v)
    (hv : isFailureVal v = false)
    (hfmt : o.fmt v = Except.ok fdata)
    (hrender : o.render fdata pdf_id = Except.ok (pv, some b))
    (hpv : isFailureVal pv = false)
    (hj : j < bsNames.length)
    (hok : ∀ m, m < j →
      isFailureVal (tryValue (o.bs m fdata pdf_id b) pdf_id
        (bsNames.getD m "")) = false)
    (hfail : isFailureVal (tryValue (o.bs j fdata pdf_id b) pdf_id
      (bsNames.getD j "")) = true) :
    processItem o paths st fname =
      { st with
        failures := st.failures ++
          [(fname, pyValStr (tryValue (o.bs j fdata pdf_id b) pdf_id
            (bsNames.getD j "")))],
        sheets := dictInsert st.sheets (sheetKey pdf_id) b,
        fs := dictInsert st.fs (sheetFileName pdf_id) b,
        trace := st.trace ++
          [(pdf_id, "launch_first_ignite"), (pdf_id, "format_summary"),
           (pdf_id, "create_pdf")] ++
          ((bsNames.take (j + 1)).map (fun nm => (pdf_id, nm))) } := by
  have hbs := runBs_fail_at o fdata pdf_id b bsNames 0 j hj
    (by intro m hm; simpa [Nat.zero_add] using hok m hm)
    (by simpa [Nat.zero_add] using hfail)
  unfold processItem
  rw [hid]
  dsimp only
  rw [hfi, tryValue_ok, hv]
  simp only [Bool.false_eq_true, if_false]
  rw [hfmt]
  simp only [try_function]
  rw [hrender]
  simp only [try_function]
  rw [hpv]
  simp only [Bool.false_eq_true, if_false]
  rw [dictGet_dictInsert]
  rw [if_pos rfl]
  dsimp only
  rw [hbs]
  simp [List.append_assoc]

/-- When every step of the pipeline succeeds, the item is recorded as a
success, the artifact is stored, and every sub-step was invoked. -/
lemma processItem_all_ok (o : Oracles) (paths : List (String × String))
    (st : BatchState) (fname pdf_id : String) (v pv : PyVal)
    (fdata : Formatted) (b : Bytes)
    (hid : extract_id fname = some pdf_id)
    (hfi : o.fi (pdfContentOf paths st.fs pdf_id) = Except.ok v)
    (hv : isFailureVal v = false)
    (hfmt : o.fmt v = Except.ok fdata)
    (hrender : o.render fdata pdf_id = Except.ok (pv, some b))
    (hpv : isFailureVal pv = false)
    (hall : ∀ m, m < bsNames.length →
      isFailureVal (tryValue (o.bs m fdata pdf_id b) pdf_id
        (bsNames.getD m "")) = false) :
    processItem o paths st fname =
      { st with
        successes := st.successes ++ [pdf_id],
        sheets := dictInsert st.sheets (sheetKey pdf_id) b,
        fs := dictInsert st.fs (sheetFileName pdf_id) b,
        trace := st.trace ++
          [(pdf_id, "launch_first_ignite"), (pdf_id, "format_summary"),
           (pdf_id, "create_pdf")] ++
          (bsNames.map (fun nm => (pdf_id, nm))) } := by
  have hbs := runBs_all_ok o fdata pdf_id b bsNames 0
    (by intro m hm; simpa [Nat.zero_add] using hall m hm)
  unfold processItem
  rw [hid]
  dsimp only
  rw [hfi, tryValue_ok, hv]
  simp only [Bool.false_eq_true, if_false]
  rw [hfmt]
  simp only [try_function]
  rw [hrender]
  simp only [try_function]
  rw [hpv]
  simp only [Bool.false_eq_true, if_false]
  rw [dictGet_dictInsert]
  rw [if_pos rfl]
  dsimp only
  rw [hbs]
  simp [List.append_assoc]

/-! ### Cancellation lemmas -/

/-- Generalized boundary-polling lemma: starting at iteration `i ≤ k`,
if the flag reads false at every boundary before `k` and true at `k`,
the run is the same as an uncancelled run over the first `k - i` items. -/
lemma runLoop_cancel_eq_take (o : Oracles) (paths : List (String × String))
    (cancel : Nat → Bool) (k : Nat) :
    ∀ (names : List String) (i : Nat) (st : BatchState),
      i ≤ k →
      (∀ m, i ≤ m → m < k → cancel m = false) →
      cancel k = true →
      runLoop o paths cancel i names st =
        runLoop o paths (fun _ => false) i (names.take (k - i)) st
  | [], i, st, _, _, _ => by simp [runLoop]
  | nm :: rest, i, st, hik, hbefore, hat => by
    by_cases hik' : i = k
    · subst hik'
      simp [runLoop, hat, Nat.sub_self]
    · have hlt : i < k := lt_of_le_of_ne hik hik'
      have hci : cancel i = false := hbefore i le_rfl hlt
      have hk : k - i = (k - (i + 1)) + 1 := by omega
      rw [hk]
      simp only [runLoop, hci, Bool.false_eq_true, if_false, List.take_succ_cons]
      exact runLoop_cancel_eq_take o paths cancel k rest (i + 1)
        (processItem o paths st nm) (by omega)
        (fun m h1 h2 => hbefore m (by omega) h2) hat

/-! ### Identifier-extraction lemmas -/

/-- `extractIdChars` returns `none` exactly when the pattern matches at
no start position. -/
lemma extractIdChars_none_iff :
    ∀ l : List Char, extractIdChars l = none ↔
      ∀ i, matchesIdAt (l.drop i) = false
  | [] => by
    constructor
    · intro _ i
      simp [List.drop_nil, matchesIdAt]
    · intro _
      rfl
  | c :: rest => by
    by_cases hm : matchesIdAt (c :: rest) = true
    · simp only [extractIdChars, hm, if_true]
      constructor
      · intro hc
        exact absurd hc (by simp)
      · intro hall
        have := hall 0
        simp [hm] at this
    · have hf : matchesIdAt (c :: rest) = false := eq_false_of_ne_true hm
      simp only [extractIdChars, hf, Bool.false_eq_true, if_false]
      rw [extractIdChars_none_iff rest]
      constructor
      · intro hall i
        cases i with
        | zero => simpa using hf
        | succ n => simpa [List.drop_succ_cons] using hall n
      · intro hall i
        have := hall (i + 1)
        simpa [List.drop_succ_cons] using this

/-- When `extractIdChars` returns a match, it is the eight characters at
the leftmost start position where the pattern matches. -/
lemma extractIdChars_some :
    ∀ (l t : List Char), extractIdChars l = some t →
      ∃ i, matchesIdAt (l.drop i) = true ∧ t = (l.drop i).take 8 ∧
        ∀ j, j < i → matchesIdAt (l.drop j) = false
  | [], t, h => by simp [extractIdChars] at h
  | c :: rest, t, h => by
    by_cases hm : matchesIdAt (c :: rest) = true
    · simp only [extractIdChars, hm, if_true, Option.some_inj] at h
      exact ⟨0, by simpa using hm, by simp [h.symm],
        fun j hj => absurd hj (Nat.not_lt_zero j)⟩
    · have hf : matchesIdAt (c :: rest) = false := eq_false_of_ne_true hm
      simp only [extractIdChars, hf, Bool.false_eq_true, if_false] at h
      obtain ⟨i, h1, h2, h3⟩ := extractIdChars_some rest t h
      refine ⟨i + 1, by simpa [List.drop_succ_cons] using h1,
        by simpa [List.drop_succ_cons] using h2, ?_⟩
      intro j hj
      cases j with
      | zero => simpa using hf
      | succ n => simpa [List.drop_succ_cons] using h3 n (by omega)

/-! ### Configuration-gate lemmas -/

/-- C3 (amended): the validation gate passes iff (a) when the image set
is enabled, something is uploaded and both set differences
`missing = primaryIds − imageIds` and `extra = imageIds − primaryIds`
are empty, and (b) when the tag table is enabled, a file is uploaded and
readable and only `missing = primaryIds − tagIds` is empty — extra
identifiers in the tag table are not checked and do not fail the gate;
every toggled-on-but-empty companion source fails the gate. -/
theorem C3_gate_characterization (pdfNames : List String) (inclImg : Bool)
    (imageNames : List String) (inclTags : Bool)
    (tagData : Option (Option (List String))) :
    all_checks_passed pdfNames inclImg imageNames inclTags tagData = true ↔
      ((inclImg = true →
         imageNames ≠ [] ∧
         setMinus (idSet pdfNames) (idSet imageNames) = [] ∧
         setMinus (idSet imageNames) (idSet pdfNames) = []) ∧
       (inclTags = true →
         ∃ ids, tagData = some (some ids) ∧
           setMinus (idSet pdfNames) ids = [])) := by
  unfold all_checks_passed
  cases inclImg with
  | false =>
    cases inclTags with
    | false => simp
    | true =>
      cases tagData with
      | none => simp
      | some inner =>
        cases inner with
        | none => simp
        | some ids => by_cases hmt : setMinus (idSet pdfNames) ids = [] <;>
            simp [hmt, List.isEmpty_iff]
  | true =>
    by_cases himg : imageNames = []
    · subst himg
      cases inclTags with
      | false => simp
      | true =>
        cases tagData with
        | none => simp
        | some inner =>
          cases inner with
          | none => simp
          | some ids => by_cases hmt : setMinus (idSet pdfNames) ids = [] <;>
              simp [hmt, List.isEmpty_iff]
    · have h1 : imageNames.isEmpty = false := by simp [List.isEmpty_iff, himg]
      by_cases hmi : setMinus (idSet pdfNames) (idSet imageNames) = [] <;>
        by_cases hei : setMinus (idSet imageNames) (idSet pdfNames) = [] <;>
        cases inclTags with
      | _ =>
        cases tagData with
        | none => simp [h1, hmi, hei, himg, List.isEmpty_iff]
        | some inner =>
          cases inner with
          | none => simp [h1, hmi, hei, himg, List.isEmpty_iff]
          | some ids =>
            by_cases hmt : setMinus (idSet pdfNames) ids = [] <;>
              simp [h1, hmi, hei, himg, hmt, List.isEmpty_iff]

/-! ### Independence of the batch result from companion inputs -/

/-- The bookkeeping parts of a `BatchState`, without the temporary
directory. -/
def nonFs (st : BatchState) :
    List String × List (String × String) × List (String × Bytes) ×
      List (String × String) :=
  (st.successes, st.failures, st.sheets, st.trace)

/-- Two directory states agree on every name in `R`. -/
def fsAgree (R : List String) (a b : FS) : Prop :=
  ∀ n, n ∈ R → dictGet a n = dictGet b n

/-- Writing the same value under the same key preserves agreement. -/
lemma fsAgree_dictInsert {R : List String} {a b : FS} (k : String)
    (v : Bytes) (h : fsAgree R a b) :
    fsAgree R (dictInsert a k v) (dictInsert b k v) := by
  intro n hn
  rw [dictGet_dictInsert, dictGet_dictInsert]
  by_cases hk : n = k <;> simp [hk, h n hn]

/-- The filenames the processing of one item may read or write: the
path registered for its identifier and its sell-sheet output path. -/
lemma processItem_agree (o : Oracles) (paths : List (String × String))
    (fname : String) (R : List String)
    (hpath : ∀ id, extract_id fname = some id →
      ((dictGet paths id).getD "") ∈ R ∧ sheetFileName id ∈ R)
    (s : List String) (f : List (String × String))
    (sh : List (String × Bytes)) (tr : List (String × String))
    (fsA fsB : FS) (hag : fsAgree R fsA fsB) :
    nonFs (processItem o paths ⟨s, f, sh, fsA, tr⟩ fname) =
      nonFs (processItem o paths ⟨s, f, sh, fsB, tr⟩ fname) ∧
    fsAgree R (processItem o paths ⟨s, f, sh, fsA, tr⟩ fname).fs
      (processItem o paths ⟨s, f, sh, fsB, tr⟩ fname).fs := by
  cases hid : extract_id fname with
  | none =>
    rw [processItem_no_id o paths _ fname hid, processItem_no_id o paths _ fname hid]
    exact ⟨rfl, hag⟩
  | some id =>
    obtain ⟨hp1, hp2⟩ := hpath id hid
    have hpc : pdfContentOf paths fsB id = pdfContentOf paths fsA id := by
      unfold pdfContentOf
      rw [hag _ hp1]
    unfold processItem
    rw [hid]
    dsimp only
    rw [hpc]
    cases hfw : isFailureVal (tryValue (o.fi (pdfContentOf paths fsA id)) id
        "launch_first_ignite") with
    | true =>
      simp only [if_true]
      exact ⟨rfl, hag⟩
    | false =>
      simp only [Bool.false_eq_true, if_false]
      cases hfm : (try_function (o.fmt (tryValue (o.fi (pdfContentOf paths fsA id))
          id "launch_first_ignite")) id "format_summary").1 with
      | inr s2 =>
        dsimp only
        by_cases hps : pyStartsWith s2 "Failed" = true
        · rw [if_pos hps, if_pos hps]
          exact ⟨rfl, hag⟩
        · rw [if_neg hps, if_neg hps]
          exact ⟨rfl, hag⟩
      | inl fdata =>
        dsimp only
        cases hpr : (try_function (o.render fdata id) id "create_pdf").1 with
        | inr s3 =>
          dsimp only
          cases hps : isFailureVal (PyVal.str s3) with
          | true =>
            simp only [if_true]
            exact ⟨rfl, hag⟩
          | false =>
            simp only [Bool.false_eq_true, if_false]
            rw [← hag _ hp2]
            cases hex : dictGet fsA (sheetFileName id) with
            | none => exact ⟨rfl, hag⟩
            | some pb =>
              dsimp only
              cases (runBs o fdata id pb 0 bsNames).1 with
              | some e => exact ⟨rfl, hag⟩
              | none => exact ⟨rfl, hag⟩
        | inl r =>
          obtain ⟨pv, w⟩ := r
          dsimp only
          cases w with
          | none =>
            cases hpv : isFailureVal pv with
            | true =>
              simp only [if_true]
              exact ⟨rfl, hag⟩
            | false =>
              simp only [Bool.false_eq_true, if_false]
              rw [← hag _ hp2]
              cases hex : dictGet fsA (sheetFileName id) with
              | none => exact ⟨rfl, hag⟩
              | some pb =>
                dsimp only
                cases (runBs o fdata id pb 0 bsNames).1 with
                | some e => exact ⟨rfl, hag⟩
                | none => exact ⟨rfl, hag⟩
          | some b =>
            cases hpv : isFailureVal pv with
            | true =>
              simp only [if_true]
              exact ⟨rfl, fsAgree_dictInsert _ _ hag⟩
            | false =>
              simp only [Bool.false_eq_true, if_false]
              rw [dictGet_dictInsert, dictGet_dictInsert, if_pos rfl, if_pos rfl]
              dsimp only
              cases (runBs o fdata id b 0 bsNames).1 with
              | some e =>
                dsimp only
                exact ⟨rfl, fsAgree_dictInsert _ _ hag⟩
              | none =>
                dsimp only
                exact ⟨rfl, fsAgree_dictInsert _ _ hag⟩

/-- Congruence of the whole batch loop: if the two starting directory
states agree on every name the batch can touch, the loop produces the
same successes, failures, sheets and trace, and the final directories
still agree. -/
lemma runLoop_agree (o : Oracles) (paths : List (String × String))
    (R : List String) (cancel : Nat → Bool) :
    ∀ (names : List String),
      (∀ fname ∈ names, ∀ id, extract_id fname = some id →
        ((dictGet paths id).getD "") ∈ R ∧ sheetFileName id ∈ R) →
      ∀ (i : Nat) (s : List String) (f : List (String × String))
        (sh : List (String × Bytes)) (tr : List (String × String))
        (fsA fsB : FS), fsAgree R fsA fsB →
      nonFs (runLoop o paths cancel i names ⟨s, f, sh, fsA, tr⟩) =
        nonFs (runLoop o paths cancel i names ⟨s, f, sh, fsB, tr⟩) ∧
      fsAgree R (runLoop o paths cancel i names ⟨s, f, sh, fsA, tr⟩).fs
        (runLoop o paths cancel i names ⟨s, f, sh, fsB, tr⟩).fs
  | [], _, i, s, f, sh, tr, fsA, fsB, hag => ⟨rfl, hag⟩
  | nm :: rest, hnames, i, s, f, sh, tr, fsA, fsB, hag => by
    cases hc : cancel i with
    | true =>
      simp only [runLoop, hc, if_true]
      exact ⟨rfl, hag⟩
    | false =>
      simp only [runLoop, hc, Bool.false_eq_true, if_false]
      obtain ⟨hnf, hfs⟩ := processItem_agree o paths nm R
        (hnames nm (List.mem_cons_self _ _)) s f sh tr fsA fsB hag
      have h1 := congrArg (fun p => p.1) hnf
      have h2 := congrArg (fun p => p.2.1) hnf
      have h3 := congrArg (fun p => p.2.2.1) hnf
      have h4 := congrArg (fun p => p.2.2.2) hnf
      simp only [nonFs] at h1 h2 h3 h4
      have hetaA : processItem o paths ⟨s, f, sh, fsA, tr⟩ nm =
          ⟨(processItem o paths ⟨s, f, sh, fsA, tr⟩ nm).successes,
           (processItem o paths ⟨s, f, sh, fsA, tr⟩ nm).failures,
           (processItem o paths ⟨s, f, sh, fsA, tr⟩ nm).sheets,
           (processItem o paths ⟨s, f, sh, fsA, tr⟩ nm).fs,
           (processItem o paths ⟨s, f, sh, fsA, tr⟩ nm).trace⟩ := rfl
      have hetaB : processItem o paths ⟨s, f, sh, fsB, tr⟩ nm =
          ⟨(processItem o paths ⟨s, f, sh, fsA, tr⟩ nm).successes,
           (processItem o paths ⟨s, f, sh, fsA, tr⟩ nm).failures,
           (processItem o paths ⟨s, f, sh, fsA, tr⟩ nm).sheets,
           (processItem o paths ⟨s, f, sh, fsB, tr⟩ nm).fs,
           (processItem o paths ⟨s, f, sh, fsA, tr⟩ nm).trace⟩ := by
        rw [h1, h2, h3, h4]
      rw [hetaA, hetaB]
      exact runLoop_agree o paths R cancel rest
        (fun x hx => hnames x (List.mem_cons_of_mem _ hx)) (i + 1) _ _ _ _ _ _ hfs

/-- Saving files whose names all differ from `n` leaves the directory
entry at `n` unchanged. -/
lemma saveFiles_fs_preserve :
    ∀ (files : List UploadedFile) (acc : FS × List (String × String))
      (n : String),
      (∀ f ∈ files, f.name ≠ n) →
      dictGet (saveUploadedFiles files acc).1 n = dictGet acc.1 n
  | [], _, _, _ => rfl
  | f :: rest, acc, n, h => by
    unfold saveUploadedFiles
    cases hid : extract_id f.name with
    | none =>
      exact saveFiles_fs_preserve rest acc n
        (fun g hg => h g (List.mem_cons_of_mem _ hg))
    | some id =>
      dsimp only
      rw [saveFiles_fs_preserve rest _ n
        (fun g hg => h g (List.mem_cons_of_mem _ hg))]
      dsimp only
      rw [dictGet_dictInsert]
      exact if_neg (fun hh => h f (List.mem_cons_self _ _) hh.symm)

/-- After the save loop, every identifier extractable from a saved file
has an entry in the paths dict. -/
lemma saveFiles_paths_isSome :
    ∀ (files : List UploadedFile) (acc : FS × List (String × String))
      (id : String),
      ((dictGet acc.2 id).isSome ∨ ∃ f ∈ files, extract_id f.name = some id) →
      (dictGet (saveUploadedFiles files acc).2 id).isSome
  | [], acc, id, h => by
    rcases h with h | ⟨f, hf, _⟩
    · exact h
    · exact absurd hf (List.not_mem_nil f)
  | f :: rest, acc, id, h => by
    unfold saveUploadedFiles
    cases hid : extract_id f.name with
    | none =>
      apply saveFiles_paths_isSome rest acc id
      rcases h with h | ⟨g, hg, hgid⟩
      · exact Or.inl h
      · rcases List.mem_cons.mp hg with rfl | hg'
        · rw [hid] at hgid
          cases hgid
        · exact Or.inr ⟨g, hg', hgid⟩
    | some idf =>
      dsimp only
      apply saveFiles_paths_isSome rest _ id
      rcases h with h | ⟨g, hg, hgid⟩
      · left
        rw [dictGet_dictInsert]
        by_cases hik : id = idf
        · simp [hik]
        · simp only [if_neg hik]
          exact h
      · rcases List.mem_cons.mp hg with rfl | hg'
        · left
          rw [hgid] at hid
          cases hid
          rw [dictGet_dictInsert, if_pos rfl]
          rfl
        · exact Or.inr ⟨g, hg', hgid⟩

/-- Every value stored in the paths dict by the save loop is the name of
one of the saved files (unless it was already in the accumulator). -/
lemma saveFiles_paths_values :
    ∀ (files : List UploadedFile) (acc : FS × List (String × String))
      (id nm : String),
      dictGet (saveUploadedFiles files acc).2 id = some nm →
      nm ∈ files.map (fun f => f.name) ∨ dictGet acc.2 id = some nm
  | [], _, _, _, h => Or.inr h
  | f :: rest, acc, id, nm, h => by
    unfold saveUploadedFiles at h
    cases hid : extract_id f.name with
    | none =>
      rw [hid] at h
      rcases saveFiles_paths_values rest acc id nm h with h' | h'
      · exact Or.inl (by simpa using Or.inr (List.mem_map.mp h'))
      · exact Or.inr h'
    | some idf =>
      rw [hid] at h
      dsimp only at h
      rcases saveFiles_paths_values rest _ id nm h with h' | h'
      · exact Or.inl (by simpa using Or.inr (List.mem_map.mp h'))
      · rw [dictGet_dictInsert] at h'
        by_cases hik : id = idf
        · rw [if_pos hik] at h'
          cases h'
          exact Or.inl (by simp)
        · rw [if_neg hik] at h'
          exact Or.inr h'

/-- The directory names the processing of the batch may read or write:
the saved primary files and the per-identifier sell-sheet outputs. -/
def relevantNames (pdfs : List UploadedFile) : List String :=
  pdfs.map (fun f => f.name) ++
    (pdfs.filterMap (fun f => extract_id f.name)).map sheetFileName

/-- When the extraction value is not classified as failed, the
formatting step is always invoked next: whatever happens afterwards, the
trace extends `[extract, format]`. -/
lemma processItem_trace_extract_ok (o : Oracles)
    (paths : List (String × String)) (st : BatchState)
    (fname pdf_id : String) (v : PyVal)
    (hid : extract_id fname = some pdf_id)
    (hfi : o.fi (pdfContentOf paths st.fs pdf_id) = Except.ok v)
    (hv : isFailureVal v = false) :
    ∃ rest, (processItem o paths st fname).trace =
      st.trace ++ [(pdf_id, "launch_first_ignite"), (pdf_id, "format_summary")]
        ++ rest := by
  unfold processItem
  rw [hid]
  dsimp only
  rw [hfi, tryValue_ok, hv]
  simp only [Bool.false_eq_true, if_false]
  cases hfm : (try_function (o.fmt v) pdf_id "format_summary").1 with
  | inr s2 =>
    dsimp only
    by_cases hps : pyStartsWith s2 "Failed" = true
    · rw [if_pos hps]
      exact ⟨[], by simp⟩
    · rw [if_neg hps]
      exact ⟨[], by simp⟩
  | inl fdata =>
    dsimp only
    cases hpr : (try_function (o.render fdata pdf_id) pdf_id "create_pdf").1 with
    | inr s3 =>
      dsimp only
      by_cases hps : isFailureVal (PyVal.str s3) = true
      · rw [if_pos hps]
        exact ⟨[(pdf_id, "create_pdf")], by simp⟩
      · rw [if_neg hps]
        cases hex : dictGet st.fs (sheetFileName pdf_id) with
        | none => exact ⟨[(pdf_id, "create_pdf")], by simp⟩
        | some pb =>
          dsimp only
          cases (runBs o fdata pdf_id pb 0 bsNames).1 with
          | some e =>
            exact ⟨[(pdf_id, "create_pdf")] ++
              (runBs o fdata pdf_id pb 0 bsNames).2.map (fun nm => (pdf_id, nm)),
              by simp⟩
          | none =>
            exact ⟨[(pdf_id, "create_pdf")] ++
              (runBs o fdata pdf_id pb 0 bsNames).2.map (fun nm => (pdf_id, nm)),
              by simp⟩
    | inl r =>
      obtain ⟨pv, w⟩ := r
      dsimp only
      by_cases hpv : isFailureVal pv = true
      · rw [if_pos hpv]
        exact ⟨[(pdf_id, "create_pdf")], by simp⟩
      · rw [if_neg hpv]
        cases w with
        | none =>
          cases hex : dictGet st.fs (sheetFileName pdf_id) with
          | none => exact ⟨[(pdf_id, "create_pdf")], by simp⟩
          | some pb =>
            dsimp only
            cases (runBs o fdata pdf_id pb 0 bsNames).1 with
            | some e =>
              exact ⟨[(pdf_id, "create_pdf")] ++
                (runBs o fdata pdf_id pb 0 bsNames).2.map (fun nm => (pdf_id, nm)),
                by simp⟩
            | none =>
              exact ⟨[(pdf_id, "create_pdf")] ++
                (runBs o fdata pdf_id pb 0 bsNames).2.map (fun nm => (pdf_id, nm)),
                by simp⟩
        | some b =>
          rw [dictGet_dictInsert, if_pos rfl]
          dsimp only
          cases (runBs o fdata pdf_id b 0 bsNames).1 with
          | some e =>
            exact ⟨[(pdf_id, "create_pdf")] ++
              (runBs o fdata pdf_id b 0 bsNames).2.map (fun nm => (pdf_id, nm)),
              by simp⟩
          | none =>
            exact ⟨[(pdf_id, "create_pdf")] ++
              (runBs o fdata pdf_id b 0 bsNames).2.map (fun nm => (pdf_id, nm)),
              by simp⟩

/-! ### Additional concrete fixtures for witnesses and counterexamples -/

/-- The empty batch bookkeeping state. -/
def emptySt : BatchState :=
  { successes := [], failures := [], sheets := [], fs := [], trace := [] }

/-- Collaborators whose extraction step raises. -/
def fiRaisesOracles : Oracles :=
  { okOracles with fi := fun _ => Except.error "boom" }

/-- Collaborators whose formatting step raises. -/
def fmtRaisesOracles : Oracles :=
  { okOracles with fmt := fun _ => Except.error "bad data" }

/-- Collaborators whose rendering step raises. -/
def renderRaisesOracles : Oracles :=
  { okOracles with render := fun _ _ => Except.error "layout error" }

/-- Collaborators whose first Brightspot sub-step raises. -/
def bs0RaisesOracles : Oracles :=
  { okOracles with bs := fun k _ _ _ =>
      if k = 0 then Except.error "no page" else Except.ok (PyVal.other 2) }

/-- Collaborators whose third Brightspot sub-step raises. -/
def bs2RaisesOracles : Oracles :=
  { okOracles with bs := fun k _ _ _ =>
      if k = 2 then Except.error "field locked" else Except.ok (PyVal.other 2) }

/-- Collaborators whose extraction step returns, as a genuine success
payload, a string that happens to start with `Failed`. -/
def fiFailedPayloadOracles : Oracles :=
  { okOracles with
    fi := fun _ => Except.ok (PyVal.str "Failed-looking genuine payload") }

/-- Collaborators whose rendering step returns, as a genuine success
value, a string starting with `Failed`, after writing the file. -/
def renderFailedPayloadOracles : Oracles :=
  { okOracles with
    render := fun _ _ => Except.ok (PyVal.str "Failed render sentinel", some [7]) }

/-- Collaborators whose second Brightspot sub-step returns, as a genuine
success payload, a string starting with `Failed`. -/
def bs1FailedPayloadOracles : Oracles :=
  { okOracles with bs := fun k _ _ _ =>
      if k = 1 then Except.ok (PyVal.str "Failed validation of the year tag widget")
      else Except.ok (PyVal.other 2) }

/-- Collaborators whose extraction step succeeds only on the byte `[1]`
(the uploaded primary file's content) and raises otherwise. -/
def contentSensitiveOracles : Oracles :=
  { okOracles with fi := fun b =>
      if b = [1] then Except.ok (PyVal.other 0) else Except.error "unreadable" }

/-- A cancellation flag that is observed set from iteration 1 on. -/
def cancelAfterOne : Nat → Bool := fun i => decide (1 ≤ i)

/-! ### Claim theorems -/

/-- C5: for every operation, argument list, step name and identifier, the
Step Executor `try_function` never lets an exception escape: it returns
either the operation's own result (with no log output), or, when the
operation raises `e`, the string formed from the static step-name table's
classified message (falling back to `Failed during {stepName}` for
unknown names) followed by `. Error: {e}`, and it emits the log line
`{identifier} - {stepName} failed: {e}`. -/
theorem C5_step_executor_contract {α : Type} (call : Except String α)
    (sCleanID func_name : String) :
    (∀ v, call = Except.ok v →
      try_function call sCleanID func_name = (Sum.inl v, [])) ∧
    (∀ e, call = Except.error e →
      try_function call sCleanID func_name =
        (Sum.inr (((dictGet error_messages func_name).getD
            ("Failed during " ++ func_name)) ++ ". Error: " ++ e),
         [sCleanID ++ " - " ++ func_name ++ " failed: " ++ e])) := by
  constructor
  · intro v hv
    subst hv
    rfl
  · intro e he
    subst he
    rfl

/-- Witness for C5 at a concrete raising call: the classified
`create_pdf` message and the log line are produced. -/
theorem C5_step_executor_contract_witness :
    try_function (Except.error "boom" : Except String PyVal) "2025-001"
        "create_pdf" =
      (Sum.inr "Failed to generate the sell sheet PDF - there may be an issue with the data or formatting. Error: boom",
       ["2025-001 - create_pdf failed: boom"]) :=
  ((C5_step_executor_contract (Except.error "boom" : Except String PyVal)
      "2025-001" "create_pdf").2 "boom" rfl).trans (by decide)

/-- C6: for every filename, `extract_id` returns the first (leftmost)
substring matching four digits, hyphen, three digits, and returns `none`
exactly when the pattern matches at no position; it is a pure function,
so determinism and absence of side effects are inherent in the model. -/
theorem C6_extract_id_spec (filename : String) :
    (extract_id filename = none ↔
      ∀ i, matchesIdAt (filename.data.drop i) = false) ∧
    (∀ t, extract_id filename = some t →
      ∃ i, matchesIdAt (filename.data.drop i) = true ∧
        t = String.mk ((filename.data.drop i).take 8) ∧
        ∀ j, j < i → matchesIdAt (filename.data.drop j) = false) := by
  constructor
  · unfold extract_id
    rw [Option.map_eq_none']
    exact extractIdChars_none_iff filename.data
  · intro t ht
    unfold extract_id at ht
    obtain ⟨u, hu, hfu⟩ := Option.map_eq_some'.mp ht
    obtain ⟨i, h1, h2, h3⟩ := extractIdChars_some filename.data u hu
    exact ⟨i, h1, by rw [← hfu, h2], h3⟩

/-- Witness for C6 at a concrete filename with a match. -/
theorem C6_extract_id_spec_witness :
    ∃ i, matchesIdAt (("disc 2025-001 v2.pdf").data.drop i) = true ∧
      "2025-001" = String.mk ((("disc 2025-001 v2.pdf").data.drop i).take 8) ∧
      ∀ j, j < i → matchesIdAt (("disc 2025-001 v2.pdf").data.drop j) = false :=
  (C6_extract_id_spec "disc 2025-001 v2.pdf").2 "2025-001" (by decide)

/-- C7: cancellation is observed only at item boundaries.  If the flag
reads false at every boundary before `k` and true at the boundary after
item `k` completes, the batch loop produces exactly the state of an
uncancelled run over the first `k` items: outcomes of items 1..k are
kept and later items are omitted entirely (no step of theirs runs). -/
theorem C7_cancellation_boundary (o : Oracles)
    (paths : List (String × String)) (cancel : Nat → Bool) (k : Nat)
    (names : List String) (st : BatchState)
    (hbefore : ∀ m, m < k → cancel m = false) (hat : cancel k = true) :
    runLoop o paths cancel 0 names st =
      runLoop o paths (fun _ => false) 0 (names.take k) st := by
  have h := runLoop_cancel_eq_take o paths cancel k names 0 st (Nat.zero_le k)
    (fun m _ h2 => hbefore m h2) hat
  simpa using h

/-- Counterexample for C3 as stated: a tag table containing the extra
identifier `2099-999`, which is not among the primary identifiers, still
passes the gate — the tag-matching block (src/app.py lines 389-399)
computes only the `missing` difference and never the `extra` one. -/
theorem C3_extra_tag_passes_gate :
    all_checks_passed ["a2025-001.pdf"] false [] true
        (some (some ["2025-001", "2099-999"])) = true ∧
    "2099-999" ∈ ["2025-001", "2099-999"] ∧
    "2099-999" ∉ idSet ["a2025-001.pdf"] := by
  decide

/-- Witness for C3 (amended) at a concrete passing configuration with
both companion sources enabled and matching. -/
theorem C3_gate_characterization_witness :
    all_checks_passed ["a2025-001.pdf"] true ["img 2025-001.png"] true
        (some (some ["2025-001"])) = true :=
  (C3_gate_characterization ["a2025-001.pdf"] true ["img 2025-001.png"] true
      (some (some ["2025-001"]))).mpr
    ⟨fun _ => ⟨by decide, by decide, by decide⟩,
     fun _ => ⟨["2025-001"], rfl, by decide⟩⟩

/-- Witness for C7: a two-item batch with the flag set after the first
item processes exactly the first item. -/
theorem C7_cancellation_boundary_witness :
    runLoop okOracles [] cancelAfterOne 0 ["2025-001.pdf", "2025-002.pdf"]
        emptySt =
      runLoop okOracles [] (fun _ => false) 0
        (["2025-001.pdf", "2025-002.pdf"].take 1) emptySt :=
  C7_cancellation_boundary okOracles [] cancelAfterOne 1
    ["2025-001.pdf", "2025-002.pdf"] emptySt
    (fun m hm => by
      have hm0 : m = 0 := Nat.lt_one_iff.mp hm
      subst hm0
      rfl)
    rfl

/-- C1 (code bug, failing input): a one-item batch whose extraction step
raises.  The step's message is appended to the local `file_errors` list
and the loop body executes `continue` (src/app.py lines 200-202), which
skips the final bookkeeping at lines 296-301 — so the started item is
recorded in neither `successes` nor `failures` (the trace shows its
processing did start), contradicting the claim that exactly one outcome
is recorded and that extract/transform/render failures appear in the
failures list. -/
theorem C1_item_dropped_from_bookkeeping :
    (run_automation_process fiRaisesOracles cancelNever pdfsOne [] ()).successes
        = [] ∧
    (run_automation_process fiRaisesOracles cancelNever pdfsOne [] ()).failures
        = [] ∧
    (run_automation_process fiRaisesOracles cancelNever pdfsOne [] ()).trace =
      [("2025-001", "launch_first_ignite")] := by
  decide

/-- Counterexample for C2 as stated: a one-item batch whose first
publish sub-step raises.  The publish step fails, the item is recorded
as a failure, and yet its rendered artifact is still present in the
generated-artifacts mapping (it was stored at src/app.py line 244 before
the publish loop ran), so the artifact is not absent on every step
failure. -/
theorem C2_publish_failure_artifact_retained :
    dictGet (run_automation_process bs0RaisesOracles cancelNever pdfsOne
        [] ()).sheets "sell_sheet_2025-001.pdf" = some [7] ∧
    (run_automation_process bs0RaisesOracles cancelNever pdfsOne [] ()).failures
        =
      [("2025-001.pdf",
        "Failed to access the technology template in Brightspot. Error: no page")] := by
  decide

/-- C2 (amended): if the extract, transform, or render step of an item
fails, no subsequent step for that item executes (the trace gains exactly
the calls made so far) and the item's processing records no artifact
(sheets unchanged); if a publish sub-step fails, no subsequent publish
sub-step executes, but the artifact recorded after render is retained in
the mapping. -/
theorem C2_failed_step_halts_item (o : Oracles)
    (paths : List (String × String)) (st : BatchState)
    (fname pdf_id : String) (hid : extract_id fname = some pdf_id) :
    (isFailureVal (tryValue (o.fi (pdfContentOf paths st.fs pdf_id)) pdf_id
        "launch_first_ignite") = true →
      processItem o paths st fname =
        { st with trace := st.trace ++ [(pdf_id, "launch_first_ignite")] }) ∧
    (∀ v e, o.fi (pdfContentOf paths st.fs pdf_id) = Except.ok v →
      isFailureVal v = false → o.fmt v = Except.error e →
      processItem o paths st fname =
        { st with trace := st.trace ++
            [(pdf_id, "launch_first_ignite"), (pdf_id, "format_summary")] }) ∧
    (∀ v fdata e, o.fi (pdfContentOf paths st.fs pdf_id) = Except.ok v →
      isFailureVal v = false → o.fmt v = Except.ok fdata →
      o.render fdata pdf_id = Except.error e →
      processItem o paths st fname =
        { st with trace := st.trace ++
            [(pdf_id, "launch_first_ignite"), (pdf_id, "format_summary"),
             (pdf_id, "create_pdf")] }) ∧
    (∀ v fdata pv b j, o.fi (pdfContentOf paths st.fs pdf_id) = Except.ok v →
      isFailureVal v = false → o.fmt v = Except.ok fdata →
      o.render fdata pdf_id = Except.ok (pv, some b) →
      isFailureVal pv = false → j < bsNames.length →
      (∀ m, m < j → isFailureVal (tryValue (o.bs m fdata pdf_id b) pdf_id
        (bsNames.getD m "")) = false) →
      isFailureVal (tryValue (o.bs j fdata pdf_id b) pdf_id
        (bsNames.getD j "")) = true →
      (processItem o paths st fname).trace = st.trace ++
          [(pdf_id, "launch_first_ignite"), (pdf_id, "format_summary"),
           (pdf_id, "create_pdf")] ++
          ((bsNames.take (j + 1)).map (fun nm => (pdf_id, nm))) ∧
      dictGet (processItem o paths st fname).sheets (sheetKey pdf_id) =
        some b) := by
  refine ⟨?_, ?_, ?_, ?_⟩
  · intro hfail
    exact processItem_extract_fail o paths st fname pdf_id hid hfail
  · intro v e hfi hv hfmt
    exact processItem_fmt_fail o paths st fname pdf_id v e hid hfi hv hfmt
  · intro v fdata e hfi hv hfmt hrender
    exact processItem_render_fail o paths st fname pdf_id v fdata e hid hfi hv
      hfmt hrender
  · intro v fdata pv b j hfi hv hfmt hrender hpv hj hok hfail
    rw [processItem_publish_fail o paths st fname pdf_id v pv fdata b j hid hfi
      hv hfmt hrender hpv hj hok hfail]
    constructor
    · rfl
    · dsimp only
      rw [dictGet_dictInsert, if_pos rfl]

/-- Witness for C2 (amended): each of the four failure sites exercised
on a concrete one-item batch. -/
theorem C2_failed_step_halts_item_witness :
    processItem fiRaisesOracles [] emptySt "2025-001.pdf" =
      { emptySt with trace := [("2025-001", "launch_first_ignite")] } ∧
    processItem fmtRaisesOracles [] emptySt "2025-001.pdf" =
      { emptySt with trace :=
          [("2025-001", "launch_first_ignite"), ("2025-001", "format_summary")] } ∧
    processItem renderRaisesOracles [] emptySt "2025-001.pdf" =
      { emptySt with trace :=
          [("2025-001", "launch_first_ignite"), ("2025-001", "format_summary"),
           ("2025-001", "create_pdf")] } ∧
    ((processItem bs0RaisesOracles [] emptySt "2025-001.pdf").trace =
        [("2025-001", "launch_first_ignite"), ("2025-001", "format_summary"),
         ("2025-001", "create_pdf"), ("2025-001", "bs_template_click")] ∧
      dictGet (processItem bs0RaisesOracles [] emptySt "2025-001.pdf").sheets
        "sell_sheet_2025-001.pdf" = some [7]) := by
  refine ⟨?_, ?_, ?_, ?_⟩
  · exact ((C2_failed_step_halts_item fiRaisesOracles [] emptySt "2025-001.pdf"
      "2025-001" (by decide)).1 (by decide)).trans (by decide)
  · exact ((C2_failed_step_halts_item fmtRaisesOracles [] emptySt "2025-001.pdf"
      "2025-001" (by decide)).2.1 (PyVal.other 0) "bad data" rfl (by decide)
      rfl).trans (by decide)
  · exact ((C2_failed_step_halts_item renderRaisesOracles [] emptySt
      "2025-001.pdf" "2025-001" (by decide)).2.2.1 (PyVal.other 0) fmtSample
      "layout error" rfl (by decide) rfl rfl).trans (by decide)
  · have h := (C2_failed_step_halts_item bs0RaisesOracles [] emptySt
      "2025-001.pdf" "2025-001" (by decide)).2.2.2 (PyVal.other 0) fmtSample
      (PyVal.other 1) [7] 0 rfl (by decide) rfl rfl (by decide) (by decide)
      (fun m hm => absurd hm (Nat.not_lt_zero m)) (by decide)
    exact ⟨h.1.trans (by decide), h.2.trans (by decide)⟩

/-- C4: for an item that succeeds through extract, transform and render
(writing artifact `b`) but whose publish sub-step `j` raises `e`: the
pair `(originalFilename, classified message of that sub-step)` is
appended to failures, the item is not appended to successes, and the
rendered artifact is nevertheless retained in the artifacts mapping
under the key `sell_sheet_{identifier}.pdf`. -/
theorem C4_publish_failure_outcome (o : Oracles)
    (paths : List (String × String)) (st : BatchState)
    (fname pdf_id : String) (v pv : PyVal) (fdata : Formatted) (b : Bytes)
    (j : Nat) (e : String)
    (hid : extract_id fname = some pdf_id)
    (hfi : o.fi (pdfContentOf paths st.fs pdf_id) = Except.ok v)
    (hv : isFailureVal v = false)
    (hfmt : o.fmt v = Except.ok fdata)
    (hrender : o.render fdata pdf_id = Except.ok (pv, some b))
    (hpv : isFailureVal pv = false)
    (hj : j < bsNames.length)
    (hok : ∀ m, m < j → isFailureVal (tryValue (o.bs m fdata pdf_id b) pdf_id
      (bsNames.getD m "")) = false)
    (hfail : o.bs j fdata pdf_id b = Except.error e) :
    (processItem o paths st fname).failures =
      st.failures ++ [(fname, get_error_message (bsNames.getD j "") e)] ∧
    (processItem o paths st fname).successes = st.successes ∧
    dictGet (processItem o paths st fname).sheets (sheetKey pdf_id) =
      some b := by
  have hfail' : isFailureVal (tryValue (o.bs j fdata pdf_id b) pdf_id
      (bsNames.getD j "")) = true := by
    rw [hfail]
    exact isFailureVal_tryValue_error _ _ _
  rw [processItem_publish_fail o paths st fname pdf_id v pv fdata b j hid hfi
    hv hfmt hrender hpv hj hok hfail']
  refine ⟨?_, rfl, ?_⟩
  · rw [hfail]
    rfl
  · dsimp only
    rw [dictGet_dictInsert, if_pos rfl]

/-- Witness for C4 at the spec's scenario: the third publish sub-step
raises for identifier `2025-001`; the failure carries the classified
`bs_title_techID` message, successes stay empty, and the artifact is
retained. -/
theorem C4_publish_failure_outcome_witness :
    (processItem bs2RaisesOracles [] emptySt "2025-001.pdf").failures =
      [("2025-001.pdf",
        "Failed to set the technology title and ID in Brightspot. Error: field locked")] ∧
    (processItem bs2RaisesOracles [] emptySt "2025-001.pdf").successes = [] ∧
    dictGet (processItem bs2RaisesOracles [] emptySt "2025-001.pdf").sheets
      "sell_sheet_2025-001.pdf" = some [7] := by
  have h := C4_publish_failure_outcome bs2RaisesOracles [] emptySt
    "2025-001.pdf" "2025-001" (PyVal.other 0) (PyVal.other 1) fmtSample [7] 2
    "field locked" (by decide) rfl (by decide) rfl rfl (by decide) (by decide)
    (fun m hm => by
      have hm2 : m = 0 ∨ m = 1 := by omega
      rcases hm2 with rfl | rfl <;> decide)
    rfl
  exact ⟨h.1.trans (by decide), h.2.1.trans (by decide), h.2.2.trans (by decide)⟩

/-- Counterexample for C9 as stated: the extraction step returns, as a
genuine success payload, a string starting with `Failed`.  The
orchestrator classifies the step as failed (no later step of the item
runs, see the trace), but the item is recorded in neither list — in
particular it is not "recorded as a failure", because the `continue` at
src/app.py line 202 skips the bookkeeping at lines 296-301. -/
theorem C9_extract_failed_payload_not_recorded :
    (run_automation_process fiFailedPayloadOracles cancelNever pdfsOne
        [] ()).failures = [] ∧
    (run_automation_process fiFailedPayloadOracles cancelNever pdfsOne
        [] ()).successes = [] ∧
    (run_automation_process fiFailedPayloadOracles cancelNever pdfsOne
        [] ()).trace = [("2025-001", "launch_first_ignite")] := by
  decide

/-- C9 (amended): the orchestrator classifies a step value as failed
exactly when it is a string starting with `Failed`.  Consequently a
genuine success payload of that shape is treated as that step's failure:
(a) at the extraction site it aborts the item after the extraction call
alone and (because of the skipped bookkeeping, see C1) the item is
recorded nowhere; (b) conversely, an extraction value not of that shape
always lets the formatting step run; (c) at the render site it likewise
aborts the item, which is recorded nowhere and contributes no artifact;
(d) at any publish sub-step `j` it halts the remaining sub-steps and the
payload itself is recorded verbatim as the item's failure reason, with
no success entry.  (The transform site cannot produce such a payload
under the transform collaborator's contract, which returns the six
structured fields.) -/
theorem C9_failed_prefix_classification (o : Oracles)
    (paths : List (String × String)) (st : BatchState)
    (fname pdf_id : String) (hid : extract_id fname = some pdf_id) :
    (∀ s2, o.fi (pdfContentOf paths st.fs pdf_id) = Except.ok (PyVal.str s2) →
      pyStartsWith s2 "Failed" = true →
      processItem o paths st fname =
        { st with trace := st.trace ++ [(pdf_id, "launch_first_ignite")] }) ∧
    (∀ v, o.fi (pdfContentOf paths st.fs pdf_id) = Except.ok v →
      isFailureVal v = false →
      ∃ rest, (processItem o paths st fname).trace =
        st.trace ++ [(pdf_id, "launch_first_ignite"),
          (pdf_id, "format_summary")] ++ rest) ∧
    (∀ v fdata s3 w, o.fi (pdfContentOf paths st.fs pdf_id) = Except.ok v →
      isFailureVal v = false → o.fmt v = Except.ok fdata →
      o.render fdata pdf_id = Except.ok (PyVal.str s3, w) →
      pyStartsWith s3 "Failed" = true →
      processItem o paths st fname =
        { st with
          fs := w.elim st.fs
            (fun b => dictInsert st.fs (sheetFileName pdf_id) b),
          trace := st.trace ++
            [(pdf_id, "launch_first_ignite"), (pdf_id, "format_summary"),
             (pdf_id, "create_pdf")] }) ∧
    (∀ v fdata pv b j s2, o.fi (pdfContentOf paths st.fs pdf_id) = Except.ok v →
      isFailureVal v = false → o.fmt v = Except.ok fdata →
      o.render fdata pdf_id = Except.ok (pv, some b) →
      isFailureVal pv = false → j < bsNames.length →
      (∀ m, m < j → isFailureVal (tryValue (o.bs m fdata pdf_id b) pdf_id
        (bsNames.getD m "")) = false) →
      o.bs j fdata pdf_id b = Except.ok (PyVal.str s2) →
      pyStartsWith s2 "Failed" = true →
      (processItem o paths st fname).failures =
        st.failures ++ [(fname, s2)] ∧
      (processItem o paths st fname).successes = st.successes ∧
      (processItem o paths st fname).trace = st.trace ++
          [(pdf_id, "launch_first_ignite"), (pdf_id, "format_summary"),
           (pdf_id, "create_pdf")] ++
          ((bsNames.take (j + 1)).map (fun nm => (pdf_id, nm)))) := by
  refine ⟨?_, ?_, ?_, ?_⟩
  · intro s2 hfi hps
    apply processItem_extract_fail o paths st fname pdf_id hid
    rw [hfi, tryValue_ok]
    exact hps
  · intro v hfi hv
    exact processItem_trace_extract_ok o paths st fname pdf_id v hid hfi hv
  · intro v fdata s3 w hfi hv hfmt hrender hps
    exact processItem_render_payload_fail o paths st fname pdf_id v fdata s3 w
      hid hfi hv hfmt hrender hps
  · intro v fdata pv b j s2 hfi hv hfmt hrender hpv hj hok hbsj hps
    have hfail : isFailureVal (tryValue (o.bs j fdata pdf_id b) pdf_id
        (bsNames.getD j "")) = true := by
      rw [hbsj, tryValue_ok]
      exact hps
    rw [processItem_publish_fail o paths st fname pdf_id v pv fdata b j hid
      hfi hv hfmt hrender hpv hj hok hfail]
    refine ⟨?_, rfl, rfl⟩
    dsimp only
    rw [hbsj, tryValue_ok]
    rfl

/-- Witness for C9 (amended): concrete batches exercising the render
site (a genuine `Failed`-prefixed `create_pdf` return value drops the
item with no artifact recorded) and publish sub-step 1 (the genuine
payload string is recorded verbatim as the failure, and sub-steps after
1 never run). -/
theorem C9_failed_prefix_classification_witness :
    processItem renderFailedPayloadOracles [] emptySt "2025-001.pdf" =
      { emptySt with
        fs := [("2025-001_sell_sheet.pdf", [7])],
        trace := [("2025-001", "launch_first_ignite"),
          ("2025-001", "format_summary"), ("2025-001", "create_pdf")] } ∧
    ((processItem bs1FailedPayloadOracles [] emptySt "2025-001.pdf").failures =
        [("2025-001.pdf", "Failed validation of the year tag widget")] ∧
      (processItem bs1FailedPayloadOracles [] emptySt "2025-001.pdf").successes
          = [] ∧
      (processItem bs1FailedPayloadOracles [] emptySt "2025-001.pdf").trace =
        [("2025-001", "launch_first_ignite"), ("2025-001", "format_summary"),
         ("2025-001", "create_pdf"), ("2025-001", "bs_template_click"),
         ("2025-001", "bs_display_internal_name")]) := by
  constructor
  · exact ((C9_failed_prefix_classification renderFailedPayloadOracles []
      emptySt "2025-001.pdf" "2025-001" (by decide)).2.2.1 (PyVal.other 0)
      fmtSample "Failed render sentinel" (some [7]) rfl (by decide) rfl rfl
      (by decide)).trans (by decide)
  · have h := (C9_failed_prefix_classification bs1FailedPayloadOracles []
      emptySt "2025-001.pdf" "2025-001" (by decide)).2.2.2 (PyVal.other 0)
      fmtSample (PyVal.other 1) [7] 1
      "Failed validation of the year tag widget" rfl (by decide) rfl rfl
      (by decide) (by decide)
      (fun m hm => by
        have hm0 : m = 0 := Nat.lt_one_iff.mp hm
        subst hm0
        decide)
      rfl (by decide)
    exact ⟨h.1.trans (by decide), h.2.1.trans (by decide),
      h.2.2.trans (by decide)⟩

/-- Counterexample for C10 as stated: two invocations differing only in
`image_files`.  An image named exactly like the uploaded primary file is
saved over it in the shared temporary directory (src/app.py lines
144-147), so the extraction collaborator later reads the image's bytes
through `pdf_paths[pdf_id]` and the batch result changes. -/
theorem C10_image_collision_changes_result :
    (run_automation_process contentSensitiveOracles cancelNever pdfsOne
        [] ()).successes = ["2025-001"] ∧
    (run_automation_process contentSensitiveOracles cancelNever pdfsOne
        [{ name := "2025-001.pdf", content := [2] }] ()).successes = [] := by
  decide

/-- C10 (amended): the batch result (successes, failures, generated
artifacts) is independent of the companion inputs, provided no image
filename collides with a saved primary filename or with a derived
sell-sheet filename (which the interface's extension filter enforces):
two invocations of `run_automation_process` differing only in the image
list and/or the tag table (of any type — it is never used) return the
same successes, failures and generated sell sheets. -/
theorem C10_companion_independence {τ₁ τ₂ : Type} (o : Oracles)
    (cancel : Nat → Bool) (pdf_files imgsA imgsB : List UploadedFile)
    (t1 : τ₁) (t2 : τ₂)
    (hA : ∀ f ∈ imgsA, f.name ∉ relevantNames pdf_files)
    (hB : ∀ f ∈ imgsB, f.name ∉ relevantNames pdf_files) :
    (run_automation_process o cancel pdf_files imgsA t1).successes =
      (run_automation_process o cancel pdf_files imgsB t2).successes ∧
    (run_automation_process o cancel pdf_files imgsA t1).failures =
      (run_automation_process o cancel pdf_files imgsB t2).failures ∧
    (run_automation_process o cancel pdf_files imgsA t1).sheets =
      (run_automation_process o cancel pdf_files imgsB t2).sheets := by
  have hagree : fsAgree (relevantNames pdf_files)
      (saveUploadedFiles imgsA ((saveUploadedFiles pdf_files ([], [])).1, [])).1
      (saveUploadedFiles imgsB ((saveUploadedFiles pdf_files ([], [])).1, [])).1 := by
    intro n hn
    rw [saveFiles_fs_preserve imgsA _ n
        (fun f hf hfn => hA f hf (by rw [hfn]; exact hn)),
      saveFiles_fs_preserve imgsB _ n
        (fun f hf hfn => hB f hf (by rw [hfn]; exact hn))]
  have hnames : ∀ fname ∈ pdf_files.map (fun f => f.name), ∀ id,
      extract_id fname = some id →
      ((dictGet (saveUploadedFiles pdf_files ([], [])).2 id).getD "")
        ∈ relevantNames pdf_files ∧
      sheetFileName id ∈ relevantNames pdf_files := by
    intro fname hf id hid
    obtain ⟨f, hfmem, hfname⟩ := List.mem_map.mp hf
    constructor
    · have hsome : (dictGet (saveUploadedFiles pdf_files ([], [])).2 id).isSome :=
        saveFiles_paths_isSome pdf_files ([], []) id
          (Or.inr ⟨f, hfmem, by rw [hfname]; exact hid⟩)
      obtain ⟨nm, hnm⟩ := Option.isSome_iff_exists.mp hsome
      have hval := saveFiles_paths_values pdf_files ([], []) id nm hnm
      have hmem : nm ∈ pdf_files.map (fun f => f.name) := by
        rcases hval with h | h
        · exact h
        · exact absurd h (by simp [dictGet])
      rw [hnm]
      exact List.mem_append_left _ hmem
    · refine List.mem_append_right _ ?_
      exact List.mem_map_of_mem _
        (List.mem_filterMap.mpr ⟨f, hfmem, by rw [hfname]; exact hid⟩)
  have key := runLoop_agree o (saveUploadedFiles pdf_files ([], [])).2
    (relevantNames pdf_files) cancel (pdf_files.map (fun f => f.name)) hnames
    0 [] [] [] []
    (saveUploadedFiles imgsA ((saveUploadedFiles pdf_files ([], [])).1, [])).1
    (saveUploadedFiles imgsB ((saveUploadedFiles pdf_files ([], [])).1, [])).1
    hagree
  obtain ⟨hnf, _⟩ := key
  refine ⟨?_, ?_, ?_⟩
  · have h := congrArg (fun p => p.1) hnf
    simpa [nonFs, run_automation_process] using h
  · have h := congrArg (fun p => p.2.1) hnf
    simpa [nonFs, run_automation_process] using h
  · have h := congrArg (fun p => p.2.2.1) hnf
    simpa [nonFs, run_automation_process] using h

/-- Witness for C10 (amended): adding a non-colliding image leaves the
whole batch result unchanged. -/
theorem C10_companion_independence_witness :
    (run_automation_process okOracles cancelNever pdfsOne [] ()).successes =
      (run_automation_process okOracles cancelNever pdfsOne
        [{ name := "img 2025-001.png", content := [9] }] ()).successes ∧
    (run_automation_process okOracles cancelNever pdfsOne [] ()).failures =
      (run_automation_process okOracles cancelNever pdfsOne
        [{ name := "img 2025-001.png", content := [9] }] ()).failures ∧
    (run_automation_process okOracles cancelNever pdfsOne [] ()).sheets =
      (run_automation_process okOracles cancelNever pdfsOne
        [{ name := "img 2025-001.png", content := [9] }] ()).sheets :=
  C10_companion_independence okOracles cancelNever pdfsOne []
    [{ name := "img 2025-001.png", content := [9] }] () ()
    (fun f hf => absurd hf (List.not_mem_nil f))
    (by decide)

end TTO
